import Mathlib

/-!
Shallow embedding of the dark-mode theme resolver from
`src/content/blog/the-perfect-dark-mode.mdx`:
`getInitialColorMode`, `setInitialColorMode`, the inline blocking script in
`MyDocument.render`, and the `IndexPage` hooks (`storeUserSetPreference`,
the `[darkTheme]` effect).  The durable store is modelled as the contents of
the single `localStorage` key `"theme"` (`Option String`: `none` when
`getItem` returns `null`), the system signal as the result of
`window.matchMedia("(prefers-color-scheme: dark)")`, and the document as the
pair of the `--initial-color-mode` CSS custom property and the `data-theme`
attribute on `document.documentElement`.
-/

namespace DarkMode

/-- The system signal: the `matches` field of the media-query-list returned
by `window.matchMedia`.  The source checks `typeof mql.matches === "boolean"`,
so the signal either carries a boolean or is indeterminate. -/
inductive SysSignal where
  | matches (b : Bool)
  | indeterminate
  deriving DecidableEq, Repr

/-- Document-scoped state touched by the source: the
`--initial-color-mode` style property (set via `root.style.setProperty`,
`none` before it is set; `getPropertyValue` yields `""` then) and the
`data-theme` attribute on `document.documentElement` (`none` = absent). -/
structure DocState where
  initialColorMode : Option String
  dataTheme : Option String
  deriving DecidableEq, Repr

/-- Embedding of `getInitialColorMode` (the resolve() of the spec).
`window.localStorage.getItem("theme")` returns a string or `null`;
`typeof preference === "string"` holds exactly when the store holds a value,
and then that value is returned verbatim.  Otherwise the media query is
consulted: a boolean `matches` maps `true → "dark"`, `false → "light"`,
and a non-boolean `matches` falls through to the default `"light"`. -/
def getInitialColorMode (store : Option String) (sig : SysSignal) : String :=
  match store with
  | some preference => preference
  | none =>
    match sig with
    | .matches b => if b then "dark" else "light"
    | .indeterminate => "light"

/-- Embedding of `setInitialColorMode`: computes the color mode, writes it to
the `--initial-color-mode` style property, and sets
`data-theme="dark"` on the document element exactly when the mode is
`"dark"` (the attribute is never removed here). -/
def setInitialColorMode (store : Option String) (sig : SysSignal)
    (doc : DocState) : DocState :=
  let colorMode := getInitialColorMode store sig
  let doc1 : DocState := { doc with initialColorMode := some colorMode }
  if colorMode = "dark" then { doc1 with dataTheme := some "dark" } else doc1

/-- A `localStorage.setItem` call observed as an event: the key and the
value written. -/
structure WriteEvent where
  key : String
  value : String
  deriving DecidableEq, Repr

/-- Embedding of `storeUserSetPreference`: `localStorage.setItem("theme", pref)`
as a write event. -/
def storeUserSetPreference (pref : String) : WriteEvent :=
  ⟨"theme", pref⟩

/-- Effect of a `localStorage.setItem` write on the modelled store (the
contents of the `"theme"` key): the new value overwrites whatever was
there. -/
def applyWrite (_store : Option String) (e : WriteEvent) : Option String :=
  some e.value

/-- Embedding of the body of `IndexPage`'s `[darkTheme]` effect for a
boolean `darkTheme` (the spec's toggle(newValue), with `dark = true`
standing for `newValue = dark`):
when dark, `root.setAttribute("data-theme", "dark")` and
`storeUserSetPreference("dark")`; when light, `root.removeAttribute("data-theme")`
and `storeUserSetPreference("light")`.  Returns the new document state and
the new store contents. -/
def toggle (dark : Bool) (doc : DocState) (store : Option String) :
    DocState × Option String :=
  if dark then
    ({ doc with dataTheme := some "dark" },
      applyWrite store (storeUserSetPreference "dark"))
  else
    ({ doc with dataTheme := none },
      applyWrite store (storeUserSetPreference "light"))

/-- The store writes emitted by one run of the `[darkTheme]` effect, for the
three possible values of the `darkTheme` state (`none` = `undefined`,
guarded out by `if (darkTheme !== undefined)`). -/
def effectWrites (darkTheme : Option Bool) : List WriteEvent :=
  match darkTheme with
  | none => []
  | some true => [storeUserSetPreference "dark"]
  | some false => [storeUserSetPreference "light"]

/-- Embedding of `IndexPage` hydration: the `[]` effect reads
`root.style.getPropertyValue("--initial-color-mode")` (yielding `""` when
unset) and calls `setDarkTheme(initialColorValue === "dark")`; the state
change re-runs the `[darkTheme]` effect, whose guard now passes. -/
def hydrate (doc : DocState) (store : Option String) :
    DocState × Option String :=
  let initialColorValue := doc.initialColorMode.getD ""
  toggle (initialColorValue = "dark") doc store

/-- One full page load: the blocking inline script runs
`setInitialColorMode`, then the React page mounts and hydrates. -/
def pageLoad (store : Option String) (sig : SysSignal) (doc : DocState) :
    DocState × Option String :=
  hydrate (setInitialColorMode store sig doc) store

/-! Exception-aware model for the failure-semantics claim.  The source wraps
nothing in try/catch: `window.localStorage.getItem` and
`localStorage.setItem` throw when the store is unavailable (e.g. blocked by
browser policy), and `window.matchMedia` may throw on platforms where it is
absent; only a *non-throwing but non-boolean* `mql.matches` is handled, by
the `typeof` guard. -/

/-- Failures that can arise from the external interfaces. -/
inductive JsError where
  | storeUnavailable
  | signalThrew
  deriving DecidableEq, Repr

/-- Availability of the durable store: either usable with some contents for
the `"theme"` key, or every access throws. -/
inductive StoreCond where
  | available (contents : Option String)
  | unavailable
  deriving DecidableEq, Repr

/-- The system-signal query: either it returns a media-query-list (whose
`matches` we model as `SysSignal`), or the query itself throws. -/
inductive SignalCond where
  | yields (s : SysSignal)
  | throws
  deriving DecidableEq, Repr

/-- Embedding of `getInitialColorMode` with exceptions made explicit.  The
source has no try/catch, so a throwing `getItem` or a throwing media-query
call propagates; only the store-empty paths reach the signal, and only a
non-boolean `matches` falls through to the default. -/
def getInitialColorModeE (store : StoreCond) (sig : SignalCond) :
    Except JsError String :=
  match store with
  | .unavailable => .error .storeUnavailable
  | .available (some preference) => .ok preference
  | .available none =>
    match sig with
    | .throws => .error .signalThrew
    | .yields (.matches b) => .ok (if b then "dark" else "light")
    | .yields .indeterminate => .ok "light"

/-- Embedding of `localStorage.setItem` with exceptions made explicit: with
the store unavailable the call throws (and `storeUserSetPreference` does not
catch it); otherwise the value overwrites the key. -/
def setItemE (store : StoreCond) (v : String) : Except JsError StoreCond :=
  match store with
  | .unavailable => .error .storeUnavailable
  | .available _ => .ok (.available (some v))

/-! Model of `MyDocument.render`: the body is, in order, the inline
`<script>` holding `blockingSetInitialColorMode` (written with neither
`async` nor `defer`, hence parser-blocking), then `<Main />` (the themed
content), then `<NextScript />`. -/

/-- The nodes of the rendered document body. -/
inductive BodyNode where
  | themeScript
  | mainContent
  | nextScript
  deriving DecidableEq, Repr

/-- Whether a script node is parser-blocking (no `async`/`defer`).  The
theme script tag in `MyDocument.render` carries neither attribute. -/
def blockingNode : BodyNode → Bool
  | .themeScript => true
  | .mainContent => false
  | .nextScript => false

/-- The body emitted by `MyDocument.render`, in document order. -/
def documentBody : List BodyNode :=
  [.themeScript, .mainContent, .nextScript]

/-- Effect of processing one body node on the document state under the
synchronous-parse model: a parser-blocking script executes in place (the
theme script runs `setInitialColorMode`); content nodes paint without
changing the state. -/
def execNode (store : Option String) (sig : SysSignal) :
    BodyNode → DocState → DocState
  | .themeScript, doc => setInitialColorMode store sig doc
  | .mainContent, doc => doc
  | .nextScript, doc => doc

/-- The document state at the moment the parser reaches `target`, having
synchronously executed every earlier node of `body`. -/
def docAtNode (body : List BodyNode) (target : BodyNode)
    (store : Option String) (sig : SysSignal) (doc : DocState) : DocState :=
  match body with
  | [] => doc
  | n :: rest =>
    if n = target then doc
    else docAtNode rest target store sig (execNode store sig n doc)

/-- The fresh document state at the start of a page load: neither the style
property nor the `data-theme` attribute is set in the server-rendered HTML. -/
def doc0 : DocState := ⟨none, none⟩

end DarkMode

namespace DarkMode

/-- C1: the claim says resolve() uses the stored value only when it is one
of the two tokens and always returns a member of {light, dark}.  The code
checks only `typeof preference === "string"`, so an invalid stored string is
returned verbatim: with the store holding `"blue"`, resolve() returns
`"blue"`, which is neither token. -/
theorem c1_counterexample :
    getInitialColorMode (some "blue") (.matches false) = "blue" ∧
      ¬("blue" = "light" ∨ "blue" = "dark") := by
  refine ⟨rfl, ?_⟩
  decide

/-- C1 (amended): resolve() uses the stored value whenever the store holds
any string, valid token or not; whenever the stored value, if present, is
one of the two tokens, the result is exactly one of {light, dark}. -/
theorem c1_amended (store : Option String) (sig : SysSignal)
    (hvalid : ∀ s, store = some s → s = "light" ∨ s = "dark") :
    (∀ s, store = some s → getInitialColorMode store sig = s) ∧
      (getInitialColorMode store sig = "light" ∨
        getInitialColorMode store sig = "dark") := by
  constructor
  · intro s hs
    simp [getInitialColorMode, hs]
  · match store with
    | some s =>
      rcases hvalid s rfl with h | h <;>
        simp [getInitialColorMode, h]
    | none =>
      match sig with
      | .matches true => right; rfl
      | .matches false => left; rfl
      | .indeterminate => left; rfl

/-- C1 witness: the amended theorem applied at store = some "dark",
signal = matches false. -/
theorem c1_witness :
    (∀ s, (some "dark" : Option String) = some s →
        getInitialColorMode (some "dark") (.matches false) = s) ∧
      (getInitialColorMode (some "dark") (.matches false) = "light" ∨
        getInitialColorMode (some "dark") (.matches false) = "dark") :=
  c1_amended (some "dark") (.matches false)
    (by intro s hs; right; cases hs; rfl)

/-- C2: the claim says an unavailable store does not propagate its failure
and resolve() returns the fixed default light.  The code has no try/catch,
so with the store unavailable resolve() propagates the error instead of
returning ok "light". -/
theorem c2_counterexample :
    getInitialColorModeE .unavailable (.yields .indeterminate) =
        .error .storeUnavailable ∧
      getInitialColorModeE .unavailable (.yields .indeterminate) ≠
        .ok "light" := by
  exact ⟨rfl, fun h => Except.noConfusion h⟩

/-- C2 (amended): only the indeterminate (non-boolean `matches`) signal is
recovered locally, by falling through to the default; a throwing store
access makes resolve() propagate the error for every signal, a throwing
signal query propagates when the store is empty, and toggle()'s store write
on an unavailable store propagates the error rather than degrading
silently. -/
theorem c2_amended :
    (∀ sig, getInitialColorModeE .unavailable sig = .error .storeUnavailable) ∧
      getInitialColorModeE (.available none) .throws = .error .signalThrew ∧
      getInitialColorModeE (.available none) (.yields .indeterminate) =
        .ok "light" ∧
      (∀ v, setItemE .unavailable v = .error .storeUnavailable) := by
  refine ⟨?_, rfl, rfl, ?_⟩
  · intro sig; rfl
  · intro v; rfl

/-- C3: a stored explicit value in {light, dark} is returned by resolve()
for every system signal (matches true, matches false, or indeterminate). -/
theorem c3_explicit_wins (sig : SysSignal) :
    getInitialColorMode (some "light") sig = "light" ∧
      getInitialColorMode (some "dark") sig = "dark" :=
  ⟨rfl, rfl⟩

/-- C4: with the store empty, resolve() returns dark exactly when the
signal is matches true, returns light on matches false, and returns the
fixed default light on an indeterminate signal. -/
theorem c4_system_fallback :
    (∀ sig, getInitialColorMode none sig = "dark" ↔ sig = .matches true) ∧
      getInitialColorMode none (.matches false) = "light" ∧
      getInitialColorMode none .indeterminate = "light" := by
  refine ⟨?_, rfl, rfl⟩
  intro sig
  match sig with
  | .matches true => simp [getInitialColorMode]
  | .matches false =>
    simp only [getInitialColorMode, if_neg Bool.false_ne_true]
    constructor
    · intro h; exact absurd h (by decide)
    · intro h; exact absurd h (by decide)
  | .indeterminate =>
    constructor
    · intro h; exact absurd h (by decide)
    · intro h; exact absurd h (by decide)

/-- C5: toggling to a mode and then resolving against the resulting store
(simulating a reload) recovers the toggled mode, for every prior store
state, document state and system signal. -/
theorem c5_toggle_roundtrip (dark : Bool) (doc : DocState)
    (store : Option String) (sig : SysSignal) :
    getInitialColorMode (toggle dark doc store).2 sig =
      (if dark then "dark" else "light") := by
  cases dark <;> rfl

/-- C6: the toggle effect is idempotent: running it twice with the same
boolean leaves the store contents and the document state identical to
running it once. -/
theorem c6_toggle_idempotent (dark : Bool) (doc : DocState)
    (store : Option String) :
    toggle dark (toggle dark doc store).1 (toggle dark doc store).2 =
      toggle dark doc store := by
  cases dark <;> rfl

/-- C7: the claim says the store after one page load (resolution plus the
hydration that follows) equals the store before.  In fact the `[darkTheme]`
effect fires during hydration and writes the resolved mode back: with an
empty store and a matches-false signal, the store after the page load holds
"light", not its prior empty state. -/
theorem c7_counterexample :
    (pageLoad none (.matches false) doc0).2 = some "light" ∧
      (pageLoad none (.matches false) doc0).2 ≠ (none : Option String) := by
  exact ⟨rfl, by decide⟩

/-- C7 (amended): resolve() itself never writes the store — the inline
script only sets the style property and the attribute — but the hydration
effect that follows it always writes the resolved mode back to the store,
so after a page load the store holds "dark" when the resolved mode was
"dark" and "light" otherwise (a value-preserving overwrite when an explicit
token was already stored, a fresh write when the store was empty). -/
theorem c7_amended (store : Option String) (sig : SysSignal) (doc : DocState) :
    (∀ target, docAtNode documentBody target store sig doc = doc ∨
        docAtNode documentBody target store sig doc =
          setInitialColorMode store sig doc ∨
        target ∉ documentBody) ∧
      (pageLoad store sig doc).2 =
        some (if getInitialColorMode store sig = "dark" then "dark"
          else "light") := by
  constructor
  · intro target
    match target with
    | .themeScript => left; rfl
    | .mainContent => right; left; rfl
    | .nextScript => right; left; rfl
  · show (hydrate (setInitialColorMode store sig doc) store).2 = _
    simp only [hydrate, setInitialColorMode, toggle, applyWrite]
    by_cases h : getInitialColorMode store sig = "dark" <;>
      simp [h, Option.getD, storeUserSetPreference]

/-- C8: every value the component ever writes to the persisted store is
exactly "light" or "dark", every write is under the single key "theme", and
a write overwrites the prior contents, so at most one persisted explicit
preference exists at a time. -/
theorem c8_store_invariant (dt : Option Bool) (e : WriteEvent)
    (he : e ∈ effectWrites dt) :
    e.key = "theme" ∧ (e.value = "light" ∨ e.value = "dark") ∧
      (∀ store, applyWrite store e = some e.value) := by
  match dt with
  | none => cases he
  | some true =>
    have : e = storeUserSetPreference "dark" := List.mem_singleton.mp he
    subst this
    exact ⟨rfl, Or.inr rfl, fun _ => rfl⟩
  | some false =>
    have : e = storeUserSetPreference "light" := List.mem_singleton.mp he
    subst this
    exact ⟨rfl, Or.inl rfl, fun _ => rfl⟩

/-- C8 witness: the invariant applied to the write emitted by toggling to
dark. -/
theorem c8_witness :
    (storeUserSetPreference "dark").key = "theme" ∧
      ((storeUserSetPreference "dark").value = "light" ∨
        (storeUserSetPreference "dark").value = "dark") ∧
      (∀ store, applyWrite store (storeUserSetPreference "dark") =
        some (storeUserSetPreference "dark").value) :=
  c8_store_invariant (some true) (storeUserSetPreference "dark")
    (List.mem_singleton.mpr rfl)

/-- C9: in the rendered document body the theme script is a parser-blocking
(neither async nor deferred) inline script placed strictly before the themed
content, so under the synchronous-parse model the document state the content
paints with already reflects the completed resolution, for every store state
and signal. -/
theorem c9_blocking_before_paint (store : Option String) (sig : SysSignal) :
    blockingNode .themeScript = true ∧
      documentBody.indexOf .themeScript < documentBody.indexOf .mainContent ∧
      docAtNode documentBody .mainContent store sig doc0 =
        setInitialColorMode store sig doc0 := by
  exact ⟨rfl, by decide, rfl⟩

/-- C10: starting from the fresh load-time document (no `data-theme`
attribute), resolution sets the attribute, to "dark", exactly when the
resolved mode is "dark"; and after any toggle the attribute is "dark" when
toggling dark and absent (not `data-theme="light"`) when toggling light. -/
theorem c10_attr_invariant (store : Option String) (sig : SysSignal)
    (doc : DocState) (h : doc.dataTheme = none) :
    ((setInitialColorMode store sig doc).dataTheme = some "dark" ↔
        getInitialColorMode store sig = "dark") ∧
      (∀ dark doc2 store2, (toggle dark doc2 store2).1.dataTheme =
        if dark then some "dark" else none) := by
  constructor
  · by_cases hmode : getInitialColorMode store sig = "dark"
    · simp [setInitialColorMode, hmode]
    · simp [setInitialColorMode, hmode, h]
  · intro dark doc2 store2
    cases dark <;> rfl

/-- C10 witness: the invariant applied at an empty store, matches-true
signal, and the fresh document. -/
theorem c10_witness :
    ((setInitialColorMode none (.matches true) doc0).dataTheme = some "dark" ↔
        getInitialColorMode none (.matches true) = "dark") ∧
      (∀ dark doc2 store2, (toggle dark doc2 store2).1.dataTheme =
        if dark then some "dark" else none) :=
  c10_attr_invariant none (.matches true) doc0 rfl

end DarkMode
